import Mathlib

/-!
Verification of the scmanager-windows-rs service-control facade.

The development shallowly embeds the Rust sources (src/error.rs,
src/service.rs, src/service_manager.rs, src/common.rs) as executable Lean
definitions.  OS primitives (OpenSCManagerW, OpenServiceW, CreateServiceW,
QueryServiceConfigW, QueryServiceStatus, ChangeServiceConfigW, ControlService,
StartServiceW, DeleteService, OpenProcessToken, LookupPrivilegeValueW,
AdjustTokenPrivileges, GetLastError) are modelled by explicit backend records
supplying each primitive's outcome; the facade functions are translated
faithfully over those backends.  Machine integers are modelled as Nat (all
codes are small and never overflow), Rust Result as Except, Rust Option as
Option, and wide-string conversion failure as the presence of an interior
nul character.
-/

/-! ## Windows error codes (values of the windows-sys constants) -/

def ERROR_FILE_NOT_FOUND : Nat := 2
def ERROR_PATH_NOT_FOUND : Nat := 3
def ERROR_ACCESS_DENIED : Nat := 5
def ERROR_INVALID_HANDLE : Nat := 6
def ERROR_INVALID_PARAMETER : Nat := 87
def ERROR_INSUFFICIENT_BUFFER : Nat := 122
def ERROR_INVALID_NAME : Nat := 123
def ERROR_SERVICE_REQUEST_TIMEOUT : Nat := 1053
def ERROR_SERVICE_NO_THREAD : Nat := 1054
def ERROR_SERVICE_DATABASE_LOCKED : Nat := 1055
def ERROR_SERVICE_ALREADY_RUNNING : Nat := 1056
def ERROR_INVALID_SERVICE_ACCOUNT : Nat := 1057
def ERROR_SERVICE_DISABLED : Nat := 1058
def ERROR_CIRCULAR_DEPENDENCY : Nat := 1059
def ERROR_SERVICE_DOES_NOT_EXIST : Nat := 1060
def ERROR_SERVICE_NOT_ACTIVE : Nat := 1062
def ERROR_DATABASE_DOES_NOT_EXIST : Nat := 1065
def ERROR_SERVICE_DEPENDENCY_FAIL : Nat := 1068
def ERROR_SERVICE_LOGON_FAILED : Nat := 1069
def ERROR_SERVICE_MARKED_FOR_DELETE : Nat := 1072
def ERROR_SERVICE_EXISTS : Nat := 1073
def ERROR_SERVICE_DEPENDENCY_DELETED : Nat := 1075
def ERROR_DUPLICATE_SERVICE_NAME : Nat := 1078

/-! ## Error families (src/error.rs)

Each Rust enum variant carries `(u32, String)`; each `From<(u32, String)>`
impl is a sequential match on the error-code constants, embedded here as a
chain of equality tests (the Rust match arms are distinct constants, so the
order of tests is immaterial except for the catch-all). -/

inductive OpenServiceError where
  | AccessDenied (code : Nat) (ctx : String)
  | InvalidHandle (code : Nat) (ctx : String)
  | InvalidName (code : Nat) (ctx : String)
  | ServiceDoesNotExist (code : Nat) (ctx : String)
  | Unknown (code : Nat) (ctx : String)
deriving DecidableEq, Repr

def OpenServiceError.fromCode (err : Nat) (display : String) : OpenServiceError :=
  if err = ERROR_ACCESS_DENIED then .AccessDenied err display
  else if err = ERROR_INVALID_HANDLE then .InvalidHandle err display
  else if err = ERROR_INVALID_NAME then .InvalidName err display
  else if err = ERROR_SERVICE_DOES_NOT_EXIST then .ServiceDoesNotExist err display
  else .Unknown err display

inductive CreateServiceError where
  | AccessDenied (code : Nat) (ctx : String)
  | CircularDependency (code : Nat) (ctx : String)
  | InvalidHandle (code : Nat) (ctx : String)
  | InvalidName (code : Nat) (ctx : String)
  | InvalidParameter (code : Nat) (ctx : String)
  | InvalidServiceAccount (code : Nat) (ctx : String)
  | ServiceExists (code : Nat) (ctx : String)
  | ServiceMarkedForDelete (code : Nat) (ctx : String)
  | Unknown (code : Nat) (ctx : String)
deriving DecidableEq, Repr

def CreateServiceError.fromCode (err : Nat) (display : String) : CreateServiceError :=
  if err = ERROR_ACCESS_DENIED then .AccessDenied err display
  else if err = ERROR_CIRCULAR_DEPENDENCY then .CircularDependency err display
  else if err = ERROR_DUPLICATE_SERVICE_NAME then .ServiceExists err display
  else if err = ERROR_INVALID_HANDLE then .InvalidHandle err display
  else if err = ERROR_INVALID_NAME then .InvalidName err display
  else if err = ERROR_INVALID_PARAMETER then .InvalidParameter err display
  else if err = ERROR_INVALID_SERVICE_ACCOUNT then .InvalidServiceAccount err display
  else if err = ERROR_SERVICE_EXISTS then .ServiceExists err display
  else if err = ERROR_SERVICE_MARKED_FOR_DELETE then .ServiceMarkedForDelete err display
  else .Unknown err display

inductive ServiceManagerError where
  | AccessDenied (code : Nat) (ctx : String)
  | DatabaseDoesNotExist (code : Nat) (ctx : String)
  | InvalidHandle (code : Nat) (ctx : String)
  | Unknown (code : Nat) (ctx : String)
deriving DecidableEq, Repr

def ServiceManagerError.fromCode (err : Nat) (display : String) : ServiceManagerError :=
  if err = ERROR_ACCESS_DENIED then .AccessDenied err display
  else if err = ERROR_DATABASE_DOES_NOT_EXIST then .DatabaseDoesNotExist err display
  else if err = ERROR_INVALID_HANDLE then .DatabaseDoesNotExist err display
  else .Unknown err display

inductive ControlServiceError where
  | AccessDenied (code : Nat) (ctx : String)
  | InvalidHandle (code : Nat) (ctx : String)
  | PathNotFound (code : Nat) (ctx : String)
  | ServiceAlreadyRunning (code : Nat) (ctx : String)
  | ServiceNotActive (code : Nat) (ctx : String)
  | ServiceDatabaseLocked (code : Nat) (ctx : String)
  | ServiceDependencyDeleted (code : Nat) (ctx : String)
  | ServiceDependencyFail (code : Nat) (ctx : String)
  | ServiceDisabled (code : Nat) (ctx : String)
  | ServiceLogonFailed (code : Nat) (ctx : String)
  | ServiceMarkedForDelete (code : Nat) (ctx : String)
  | ServiceNoThread (code : Nat) (ctx : String)
  | ServiceRequestTimeout (code : Nat) (ctx : String)
  | Unknown (code : Nat) (ctx : String)
deriving DecidableEq, Repr

def ControlServiceError.fromCode (err : Nat) (display : String) : ControlServiceError :=
  if err = ERROR_ACCESS_DENIED then .AccessDenied err display
  else if err = ERROR_INVALID_HANDLE then .InvalidHandle err display
  else if err = ERROR_PATH_NOT_FOUND ∨ err = ERROR_FILE_NOT_FOUND then .PathNotFound err display
  else if err = ERROR_SERVICE_ALREADY_RUNNING then .ServiceAlreadyRunning err display
  else if err = ERROR_SERVICE_NOT_ACTIVE then .ServiceNotActive err display
  else if err = ERROR_SERVICE_DATABASE_LOCKED then .ServiceDatabaseLocked err display
  else if err = ERROR_SERVICE_DEPENDENCY_DELETED then .ServiceDependencyDeleted err display
  else if err = ERROR_SERVICE_DEPENDENCY_FAIL then .ServiceDependencyFail err display
  else if err = ERROR_SERVICE_DISABLED then .ServiceDisabled err display
  else if err = ERROR_SERVICE_LOGON_FAILED then .ServiceLogonFailed err display
  else if err = ERROR_SERVICE_MARKED_FOR_DELETE then .ServiceMarkedForDelete err display
  else if err = ERROR_SERVICE_NO_THREAD then .ServiceNoThread err display
  else if err = ERROR_SERVICE_REQUEST_TIMEOUT then .ServiceRequestTimeout err display
  else .Unknown err display

inductive DeleteServiceError where
  | AccessDenied (code : Nat) (ctx : String)
  | ErrorServiceMarkedForDelete (code : Nat) (ctx : String)
  | InvalidHandle (code : Nat) (ctx : String)
  | Unknown (code : Nat) (ctx : String)
deriving DecidableEq, Repr

def DeleteServiceError.fromCode (err : Nat) (display : String) : DeleteServiceError :=
  if err = ERROR_ACCESS_DENIED then .AccessDenied err display
  else if err = ERROR_SERVICE_MARKED_FOR_DELETE then .ErrorServiceMarkedForDelete err display
  else if err = ERROR_INVALID_HANDLE then .InvalidHandle err display
  else .Unknown err display

inductive UpdateServiceError where
  | AccessDenied (code : Nat) (ctx : String)
  | CircularDependency (code : Nat) (ctx : String)
  | DuplicateServiceName (code : Nat) (ctx : String)
  | InvalidHandle (code : Nat) (ctx : String)
  | InvalidParameter (code : Nat) (ctx : String)
  | InvalidServiceAccount (code : Nat) (ctx : String)
  | ServiceMarkedForDelete (code : Nat) (ctx : String)
  | Unknown (code : Nat) (ctx : String)
deriving DecidableEq, Repr

def UpdateServiceError.fromCode (err : Nat) (display : String) : UpdateServiceError :=
  if err = ERROR_ACCESS_DENIED then .AccessDenied err display
  else if err = ERROR_CIRCULAR_DEPENDENCY then .CircularDependency err display
  else if err = ERROR_DUPLICATE_SERVICE_NAME then .DuplicateServiceName err display
  else if err = ERROR_INVALID_HANDLE then .InvalidHandle err display
  else if err = ERROR_INVALID_PARAMETER then .InvalidParameter err display
  else if err = ERROR_INVALID_SERVICE_ACCOUNT then .InvalidServiceAccount err display
  else if err = ERROR_SERVICE_MARKED_FOR_DELETE then .ServiceMarkedForDelete err display
  else .Unknown err display

inductive QueryServiceError where
  | AccessDenied (code : Nat) (ctx : String)
  | InvalidHandle (code : Nat) (ctx : String)
  | Unknown (code : Nat) (ctx : String)
deriving DecidableEq, Repr

def QueryServiceError.fromCode (err : Nat) (display : String) : QueryServiceError :=
  if err = ERROR_ACCESS_DENIED then .AccessDenied err display
  else if err = ERROR_INVALID_HANDLE then .InvalidHandle err display
  else .Unknown err display

/-! Payload projections: every variant of every family carries
`(code, ctx)` in the same two positions. -/

def OpenServiceError.code : OpenServiceError → Nat
  | .AccessDenied c _ => c
  | .InvalidHandle c _ => c
  | .InvalidName c _ => c
  | .ServiceDoesNotExist c _ => c
  | .Unknown c _ => c

def OpenServiceError.ctx : OpenServiceError → String
  | .AccessDenied _ s => s
  | .InvalidHandle _ s => s
  | .InvalidName _ s => s
  | .ServiceDoesNotExist _ s => s
  | .Unknown _ s => s

def ServiceManagerError.code : ServiceManagerError → Nat
  | .AccessDenied c _ => c
  | .DatabaseDoesNotExist c _ => c
  | .InvalidHandle c _ => c
  | .Unknown c _ => c

def ServiceManagerError.ctx : ServiceManagerError → String
  | .AccessDenied _ s => s
  | .DatabaseDoesNotExist _ s => s
  | .InvalidHandle _ s => s
  | .Unknown _ s => s

def CreateServiceError.code : CreateServiceError → Nat
  | .AccessDenied c _ => c
  | .CircularDependency c _ => c
  | .InvalidHandle c _ => c
  | .InvalidName c _ => c
  | .InvalidParameter c _ => c
  | .InvalidServiceAccount c _ => c
  | .ServiceExists c _ => c
  | .ServiceMarkedForDelete c _ => c
  | .Unknown c _ => c

def CreateServiceError.ctx : CreateServiceError → String
  | .AccessDenied _ s => s
  | .CircularDependency _ s => s
  | .InvalidHandle _ s => s
  | .InvalidName _ s => s
  | .InvalidParameter _ s => s
  | .InvalidServiceAccount _ s => s
  | .ServiceExists _ s => s
  | .ServiceMarkedForDelete _ s => s
  | .Unknown _ s => s

def UpdateServiceError.code : UpdateServiceError → Nat
  | .AccessDenied c _ => c
  | .CircularDependency c _ => c
  | .DuplicateServiceName c _ => c
  | .InvalidHandle c _ => c
  | .InvalidParameter c _ => c
  | .InvalidServiceAccount c _ => c
  | .ServiceMarkedForDelete c _ => c
  | .Unknown c _ => c

def UpdateServiceError.ctx : UpdateServiceError → String
  | .AccessDenied _ s => s
  | .CircularDependency _ s => s
  | .DuplicateServiceName _ s => s
  | .InvalidHandle _ s => s
  | .InvalidParameter _ s => s
  | .InvalidServiceAccount _ s => s
  | .ServiceMarkedForDelete _ s => s
  | .Unknown _ s => s

def ControlServiceError.code : ControlServiceError → Nat
  | .AccessDenied c _ => c
  | .InvalidHandle c _ => c
  | .PathNotFound c _ => c
  | .ServiceAlreadyRunning c _ => c
  | .ServiceNotActive c _ => c
  | .ServiceDatabaseLocked c _ => c
  | .ServiceDependencyDeleted c _ => c
  | .ServiceDependencyFail c _ => c
  | .ServiceDisabled c _ => c
  | .ServiceLogonFailed c _ => c
  | .ServiceMarkedForDelete c _ => c
  | .ServiceNoThread c _ => c
  | .ServiceRequestTimeout c _ => c
  | .Unknown c _ => c

def ControlServiceError.ctx : ControlServiceError → String
  | .AccessDenied _ s => s
  | .InvalidHandle _ s => s
  | .PathNotFound _ s => s
  | .ServiceAlreadyRunning _ s => s
  | .ServiceNotActive _ s => s
  | .ServiceDatabaseLocked _ s => s
  | .ServiceDependencyDeleted _ s => s
  | .ServiceDependencyFail _ s => s
  | .ServiceDisabled _ s => s
  | .ServiceLogonFailed _ s => s
  | .ServiceMarkedForDelete _ s => s
  | .ServiceNoThread _ s => s
  | .ServiceRequestTimeout _ s => s
  | .Unknown _ s => s

def DeleteServiceError.code : DeleteServiceError → Nat
  | .AccessDenied c _ => c
  | .ErrorServiceMarkedForDelete c _ => c
  | .InvalidHandle c _ => c
  | .Unknown c _ => c

def DeleteServiceError.ctx : DeleteServiceError → String
  | .AccessDenied _ s => s
  | .ErrorServiceMarkedForDelete _ s => s
  | .InvalidHandle _ s => s
  | .Unknown _ s => s

def QueryServiceError.code : QueryServiceError → Nat
  | .AccessDenied c _ => c
  | .InvalidHandle c _ => c
  | .Unknown c _ => c

def QueryServiceError.ctx : QueryServiceError → String
  | .AccessDenied _ s => s
  | .InvalidHandle _ s => s
  | .Unknown _ s => s

/-! ## Characterization of the error tables (claim C1)

For each family: one equation per documented code (evaluated on an arbitrary
context string), plus the catch-all sending every code outside the table to
`Unknown`.  Together these cover every input, so they also show the code and
context are carried unchanged in every case. -/

theorem openFrom_table : ∀ s,
    OpenServiceError.fromCode ERROR_ACCESS_DENIED s =
      .AccessDenied ERROR_ACCESS_DENIED s ∧
    OpenServiceError.fromCode ERROR_INVALID_HANDLE s =
      .InvalidHandle ERROR_INVALID_HANDLE s ∧
    OpenServiceError.fromCode ERROR_INVALID_NAME s =
      .InvalidName ERROR_INVALID_NAME s ∧
    OpenServiceError.fromCode ERROR_SERVICE_DOES_NOT_EXIST s =
      .ServiceDoesNotExist ERROR_SERVICE_DOES_NOT_EXIST s :=
  fun _ => ⟨rfl, rfl, rfl, rfl⟩

theorem openFrom_unknown : ∀ c s, c ≠ ERROR_ACCESS_DENIED → c ≠ ERROR_INVALID_HANDLE →
    c ≠ ERROR_INVALID_NAME → c ≠ ERROR_SERVICE_DOES_NOT_EXIST →
    OpenServiceError.fromCode c s = .Unknown c s := by
  intro c s n1 n2 n3 n4
  unfold OpenServiceError.fromCode
  rw [if_neg n1, if_neg n2, if_neg n3, if_neg n4]

theorem createFrom_table : ∀ s,
    CreateServiceError.fromCode ERROR_ACCESS_DENIED s =
      .AccessDenied ERROR_ACCESS_DENIED s ∧
    CreateServiceError.fromCode ERROR_CIRCULAR_DEPENDENCY s =
      .CircularDependency ERROR_CIRCULAR_DEPENDENCY s ∧
    CreateServiceError.fromCode ERROR_DUPLICATE_SERVICE_NAME s =
      .ServiceExists ERROR_DUPLICATE_SERVICE_NAME s ∧
    CreateServiceError.fromCode ERROR_INVALID_HANDLE s =
      .InvalidHandle ERROR_INVALID_HANDLE s ∧
    CreateServiceError.fromCode ERROR_INVALID_NAME s =
      .InvalidName ERROR_INVALID_NAME s ∧
    CreateServiceError.fromCode ERROR_INVALID_PARAMETER s =
      .InvalidParameter ERROR_INVALID_PARAMETER s ∧
    CreateServiceError.fromCode ERROR_INVALID_SERVICE_ACCOUNT s =
      .InvalidServiceAccount ERROR_INVALID_SERVICE_ACCOUNT s ∧
    CreateServiceError.fromCode ERROR_SERVICE_EXISTS s =
      .ServiceExists ERROR_SERVICE_EXISTS s ∧
    CreateServiceError.fromCode ERROR_SERVICE_MARKED_FOR_DELETE s =
      .ServiceMarkedForDelete ERROR_SERVICE_MARKED_FOR_DELETE s :=
  fun _ => ⟨rfl, rfl, rfl, rfl, rfl, rfl, rfl, rfl, rfl⟩

theorem createFrom_unknown : ∀ c s, c ≠ ERROR_ACCESS_DENIED → c ≠ ERROR_CIRCULAR_DEPENDENCY →
    c ≠ ERROR_DUPLICATE_SERVICE_NAME → c ≠ ERROR_INVALID_HANDLE → c ≠ ERROR_INVALID_NAME →
    c ≠ ERROR_INVALID_PARAMETER → c ≠ ERROR_INVALID_SERVICE_ACCOUNT →
    c ≠ ERROR_SERVICE_EXISTS → c ≠ ERROR_SERVICE_MARKED_FOR_DELETE →
    CreateServiceError.fromCode c s = .Unknown c s := by
  intro c s n1 n2 n3 n4 n5 n6 n7 n8 n9
  unfold CreateServiceError.fromCode
  rw [if_neg n1, if_neg n2, if_neg n3, if_neg n4, if_neg n5, if_neg n6, if_neg n7, if_neg n8,
    if_neg n9]

theorem managerFrom_table : ∀ s,
    ServiceManagerError.fromCode ERROR_ACCESS_DENIED s =
      .AccessDenied ERROR_ACCESS_DENIED s ∧
    ServiceManagerError.fromCode ERROR_DATABASE_DOES_NOT_EXIST s =
      .DatabaseDoesNotExist ERROR_DATABASE_DOES_NOT_EXIST s ∧
    ServiceManagerError.fromCode ERROR_INVALID_HANDLE s =
      .DatabaseDoesNotExist ERROR_INVALID_HANDLE s :=
  fun _ => ⟨rfl, rfl, rfl⟩

theorem managerFrom_unknown : ∀ c s, c ≠ ERROR_ACCESS_DENIED →
    c ≠ ERROR_DATABASE_DOES_NOT_EXIST → c ≠ ERROR_INVALID_HANDLE →
    ServiceManagerError.fromCode c s = .Unknown c s := by
  intro c s n1 n2 n3
  unfold ServiceManagerError.fromCode
  rw [if_neg n1, if_neg n2, if_neg n3]

theorem managerFrom_no_invalid_handle : ∀ c s s2,
    ServiceManagerError.fromCode c s ≠ .InvalidHandle c s2 := by
  intro c s s2
  unfold ServiceManagerError.fromCode
  split_ifs <;> simp

theorem controlFrom_table : ∀ s,
    ControlServiceError.fromCode ERROR_ACCESS_DENIED s =
      .AccessDenied ERROR_ACCESS_DENIED s ∧
    ControlServiceError.fromCode ERROR_INVALID_HANDLE s =
      .InvalidHandle ERROR_INVALID_HANDLE s ∧
    ControlServiceError.fromCode ERROR_PATH_NOT_FOUND s =
      .PathNotFound ERROR_PATH_NOT_FOUND s ∧
    ControlServiceError.fromCode ERROR_FILE_NOT_FOUND s =
      .PathNotFound ERROR_FILE_NOT_FOUND s ∧
    ControlServiceError.fromCode ERROR_SERVICE_ALREADY_RUNNING s =
      .ServiceAlreadyRunning ERROR_SERVICE_ALREADY_RUNNING s ∧
    ControlServiceError.fromCode ERROR_SERVICE_NOT_ACTIVE s =
      .ServiceNotActive ERROR_SERVICE_NOT_ACTIVE s ∧
    ControlServiceError.fromCode ERROR_SERVICE_DATABASE_LOCKED s =
      .ServiceDatabaseLocked ERROR_SERVICE_DATABASE_LOCKED s ∧
    ControlServiceError.fromCode ERROR_SERVICE_DEPENDENCY_DELETED s =
      .ServiceDependencyDeleted ERROR_SERVICE_DEPENDENCY_DELETED s ∧
    ControlServiceError.fromCode ERROR_SERVICE_DEPENDENCY_FAIL s =
      .ServiceDependencyFail ERROR_SERVICE_DEPENDENCY_FAIL s ∧
    ControlServiceError.fromCode ERROR_SERVICE_DISABLED s =
      .ServiceDisabled ERROR_SERVICE_DISABLED s ∧
    ControlServiceError.fromCode ERROR_SERVICE_LOGON_FAILED s =
      .ServiceLogonFailed ERROR_SERVICE_LOGON_FAILED s ∧
    ControlServiceError.fromCode ERROR_SERVICE_MARKED_FOR_DELETE s =
      .ServiceMarkedForDelete ERROR_SERVICE_MARKED_FOR_DELETE s ∧
    ControlServiceError.fromCode ERROR_SERVICE_NO_THREAD s =
      .ServiceNoThread ERROR_SERVICE_NO_THREAD s ∧
    ControlServiceError.fromCode ERROR_SERVICE_REQUEST_TIMEOUT s =
      .ServiceRequestTimeout ERROR_SERVICE_REQUEST_TIMEOUT s :=
  fun _ => ⟨rfl, rfl, rfl, rfl, rfl, rfl, rfl, rfl, rfl, rfl, rfl, rfl, rfl, rfl⟩

theorem controlFrom_unknown : ∀ c s, c ≠ ERROR_ACCESS_DENIED → c ≠ ERROR_INVALID_HANDLE →
    c ≠ ERROR_PATH_NOT_FOUND → c ≠ ERROR_FILE_NOT_FOUND → c ≠ ERROR_SERVICE_ALREADY_RUNNING →
    c ≠ ERROR_SERVICE_NOT_ACTIVE → c ≠ ERROR_SERVICE_DATABASE_LOCKED →
    c ≠ ERROR_SERVICE_DEPENDENCY_DELETED → c ≠ ERROR_SERVICE_DEPENDENCY_FAIL →
    c ≠ ERROR_SERVICE_DISABLED → c ≠ ERROR_SERVICE_LOGON_FAILED →
    c ≠ ERROR_SERVICE_MARKED_FOR_DELETE → c ≠ ERROR_SERVICE_NO_THREAD →
    c ≠ ERROR_SERVICE_REQUEST_TIMEOUT → ControlServiceError.fromCode c s = .Unknown c s := by
  intro c s n1 n2 n3 n4 n5 n6 n7 n8 n9 n10 n11 n12 n13 n14
  unfold ControlServiceError.fromCode
  rw [if_neg n1, if_neg n2, if_neg (not_or.mpr ⟨n3, n4⟩), if_neg n5, if_neg n6, if_neg n7,
    if_neg n8, if_neg n9, if_neg n10, if_neg n11, if_neg n12, if_neg n13, if_neg n14]

theorem deleteFrom_table : ∀ s,
    DeleteServiceError.fromCode ERROR_ACCESS_DENIED s =
      .AccessDenied ERROR_ACCESS_DENIED s ∧
    DeleteServiceError.fromCode ERROR_SERVICE_MARKED_FOR_DELETE s =
      .ErrorServiceMarkedForDelete ERROR_SERVICE_MARKED_FOR_DELETE s ∧
    DeleteServiceError.fromCode ERROR_INVALID_HANDLE s =
      .InvalidHandle ERROR_INVALID_HANDLE s :=
  fun _ => ⟨rfl, rfl, rfl⟩

theorem deleteFrom_unknown : ∀ c s, c ≠ ERROR_ACCESS_DENIED →
    c ≠ ERROR_SERVICE_MARKED_FOR_DELETE → c ≠ ERROR_INVALID_HANDLE →
    DeleteServiceError.fromCode c s = .Unknown c s := by
  intro c s n1 n2 n3
  unfold DeleteServiceError.fromCode
  rw [if_neg n1, if_neg n2, if_neg n3]

theorem updateFrom_table : ∀ s,
    UpdateServiceError.fromCode ERROR_ACCESS_DENIED s =
      .AccessDenied ERROR_ACCESS_DENIED s ∧
    UpdateServiceError.fromCode ERROR_CIRCULAR_DEPENDENCY s =
      .CircularDependency ERROR_CIRCULAR_DEPENDENCY s ∧
    UpdateServiceError.fromCode ERROR_DUPLICATE_SERVICE_NAME s =
      .DuplicateServiceName ERROR_DUPLICATE_SERVICE_NAME s ∧
    UpdateServiceError.fromCode ERROR_INVALID_HANDLE s =
      .InvalidHandle ERROR_INVALID_HANDLE s ∧
    UpdateServiceError.fromCode ERROR_INVALID_PARAMETER s =
      .InvalidParameter ERROR_INVALID_PARAMETER s ∧
    UpdateServiceError.fromCode ERROR_INVALID_SERVICE_ACCOUNT s =
      .InvalidServiceAccount ERROR_INVALID_SERVICE_ACCOUNT s ∧
    UpdateServiceError.fromCode ERROR_SERVICE_MARKED_FOR_DELETE s =
      .ServiceMarkedForDelete ERROR_SERVICE_MARKED_FOR_DELETE s :=
  fun _ => ⟨rfl, rfl, rfl, rfl, rfl, rfl, rfl⟩

theorem updateFrom_unknown : ∀ c s, c ≠ ERROR_ACCESS_DENIED → c ≠ ERROR_CIRCULAR_DEPENDENCY →
    c ≠ ERROR_DUPLICATE_SERVICE_NAME → c ≠ ERROR_INVALID_HANDLE →
    c ≠ ERROR_INVALID_PARAMETER → c ≠ ERROR_INVALID_SERVICE_ACCOUNT →
    c ≠ ERROR_SERVICE_MARKED_FOR_DELETE → UpdateServiceError.fromCode c s = .Unknown c s := by
  intro c s n1 n2 n3 n4 n5 n6 n7
  unfold UpdateServiceError.fromCode
  rw [if_neg n1, if_neg n2, if_neg n3, if_neg n4, if_neg n5, if_neg n6, if_neg n7]

theorem queryFrom_table : ∀ s,
    QueryServiceError.fromCode ERROR_ACCESS_DENIED s =
      .AccessDenied ERROR_ACCESS_DENIED s ∧
    QueryServiceError.fromCode ERROR_INVALID_HANDLE s =
      .InvalidHandle ERROR_INVALID_HANDLE s :=
  fun _ => ⟨rfl, rfl⟩

theorem queryFrom_unknown : ∀ c s, c ≠ ERROR_ACCESS_DENIED → c ≠ ERROR_INVALID_HANDLE →
    QueryServiceError.fromCode c s = .Unknown c s := by
  intro c s n1 n2
  unfold QueryServiceError.fromCode
  rw [if_neg n1, if_neg n2]

/-- C1: every error family's conversion from `(code, context)` produces exactly
the variant documented in its table: for each documented code the conversion
yields the documented variant carrying that code and the context unchanged —
including `ServiceManagerError` sending `ERROR_INVALID_HANDLE` to
`DatabaseDoesNotExist` (its own `InvalidHandle` variant is never produced),
`CreateServiceError` sending both `ERROR_DUPLICATE_SERVICE_NAME` and
`ERROR_SERVICE_EXISTS` to `ServiceExists`, and `ControlServiceError` sending
both `ERROR_PATH_NOT_FOUND` and `ERROR_FILE_NOT_FOUND` to `PathNotFound` —
and every code outside the family's table yields `Unknown` carrying the code
and context unchanged.  The conjuncts jointly cover every input pair. -/
theorem claim_C1 :
    (∀ s,
      OpenServiceError.fromCode ERROR_ACCESS_DENIED s =
        .AccessDenied ERROR_ACCESS_DENIED s ∧
      OpenServiceError.fromCode ERROR_INVALID_HANDLE s =
        .InvalidHandle ERROR_INVALID_HANDLE s ∧
      OpenServiceError.fromCode ERROR_INVALID_NAME s =
        .InvalidName ERROR_INVALID_NAME s ∧
      OpenServiceError.fromCode ERROR_SERVICE_DOES_NOT_EXIST s =
        .ServiceDoesNotExist ERROR_SERVICE_DOES_NOT_EXIST s) ∧
    (∀ c s, c ≠ ERROR_ACCESS_DENIED → c ≠ ERROR_INVALID_HANDLE → c ≠ ERROR_INVALID_NAME →
      c ≠ ERROR_SERVICE_DOES_NOT_EXIST → OpenServiceError.fromCode c s = .Unknown c s) ∧
    (∀ s,
      CreateServiceError.fromCode ERROR_ACCESS_DENIED s =
        .AccessDenied ERROR_ACCESS_DENIED s ∧
      CreateServiceError.fromCode ERROR_CIRCULAR_DEPENDENCY s =
        .CircularDependency ERROR_CIRCULAR_DEPENDENCY s ∧
      CreateServiceError.fromCode ERROR_DUPLICATE_SERVICE_NAME s =
        .ServiceExists ERROR_DUPLICATE_SERVICE_NAME s ∧
      CreateServiceError.fromCode ERROR_INVALID_HANDLE s =
        .InvalidHandle ERROR_INVALID_HANDLE s ∧
      CreateServiceError.fromCode ERROR_INVALID_NAME s =
        .InvalidName ERROR_INVALID_NAME s ∧
      CreateServiceError.fromCode ERROR_INVALID_PARAMETER s =
        .InvalidParameter ERROR_INVALID_PARAMETER s ∧
      CreateServiceError.fromCode ERROR_INVALID_SERVICE_ACCOUNT s =
        .InvalidServiceAccount ERROR_INVALID_SERVICE_ACCOUNT s ∧
      CreateServiceError.fromCode ERROR_SERVICE_EXISTS s =
        .ServiceExists ERROR_SERVICE_EXISTS s ∧
      CreateServiceError.fromCode ERROR_SERVICE_MARKED_FOR_DELETE s =
        .ServiceMarkedForDelete ERROR_SERVICE_MARKED_FOR_DELETE s) ∧
    (∀ c s, c ≠ ERROR_ACCESS_DENIED → c ≠ ERROR_CIRCULAR_DEPENDENCY →
      c ≠ ERROR_DUPLICATE_SERVICE_NAME → c ≠ ERROR_INVALID_HANDLE → c ≠ ERROR_INVALID_NAME →
      c ≠ ERROR_INVALID_PARAMETER → c ≠ ERROR_INVALID_SERVICE_ACCOUNT →
      c ≠ ERROR_SERVICE_EXISTS → c ≠ ERROR_SERVICE_MARKED_FOR_DELETE →
      CreateServiceError.fromCode c s = .Unknown c s) ∧
    (∀ s,
      ServiceManagerError.fromCode ERROR_ACCESS_DENIED s =
        .AccessDenied ERROR_ACCESS_DENIED s ∧
      ServiceManagerError.fromCode ERROR_DATABASE_DOES_NOT_EXIST s =
        .DatabaseDoesNotExist ERROR_DATABASE_DOES_NOT_EXIST s ∧
      ServiceManagerError.fromCode ERROR_INVALID_HANDLE s =
        .DatabaseDoesNotExist ERROR_INVALID_HANDLE s) ∧
    (∀ c s, c ≠ ERROR_ACCESS_DENIED → c ≠ ERROR_DATABASE_DOES_NOT_EXIST →
      c ≠ ERROR_INVALID_HANDLE → ServiceManagerError.fromCode c s = .Unknown c s) ∧
    (∀ c s s2, ServiceManagerError.fromCode c s ≠ .InvalidHandle c s2) ∧
    (∀ s,
      ControlServiceError.fromCode ERROR_ACCESS_DENIED s =
        .AccessDenied ERROR_ACCESS_DENIED s ∧
      ControlServiceError.fromCode ERROR_INVALID_HANDLE s =
        .InvalidHandle ERROR_INVALID_HANDLE s ∧
      ControlServiceError.fromCode ERROR_PATH_NOT_FOUND s =
        .PathNotFound ERROR_PATH_NOT_FOUND s ∧
      ControlServiceError.fromCode ERROR_FILE_NOT_FOUND s =
        .PathNotFound ERROR_FILE_NOT_FOUND s ∧
      ControlServiceError.fromCode ERROR_SERVICE_ALREADY_RUNNING s =
        .ServiceAlreadyRunning ERROR_SERVICE_ALREADY_RUNNING s ∧
      ControlServiceError.fromCode ERROR_SERVICE_NOT_ACTIVE s =
        .ServiceNotActive ERROR_SERVICE_NOT_ACTIVE s ∧
      ControlServiceError.fromCode ERROR_SERVICE_DATABASE_LOCKED s =
        .ServiceDatabaseLocked ERROR_SERVICE_DATABASE_LOCKED s ∧
      ControlServiceError.fromCode ERROR_SERVICE_DEPENDENCY_DELETED s =
        .ServiceDependencyDeleted ERROR_SERVICE_DEPENDENCY_DELETED s ∧
      ControlServiceError.fromCode ERROR_SERVICE_DEPENDENCY_FAIL s =
        .ServiceDependencyFail ERROR_SERVICE_DEPENDENCY_FAIL s ∧
      ControlServiceError.fromCode ERROR_SERVICE_DISABLED s =
        .ServiceDisabled ERROR_SERVICE_DISABLED s ∧
      ControlServiceError.fromCode ERROR_SERVICE_LOGON_FAILED s =
        .ServiceLogonFailed ERROR_SERVICE_LOGON_FAILED s ∧
      ControlServiceError.fromCode ERROR_SERVICE_MARKED_FOR_DELETE s =
        .ServiceMarkedForDelete ERROR_SERVICE_MARKED_FOR_DELETE s ∧
      ControlServiceError.fromCode ERROR_SERVICE_NO_THREAD s =
        .ServiceNoThread ERROR_SERVICE_NO_THREAD s ∧
      ControlServiceError.fromCode ERROR_SERVICE_REQUEST_TIMEOUT s =
        .ServiceRequestTimeout ERROR_SERVICE_REQUEST_TIMEOUT s) ∧
    (∀ c s, c ≠ ERROR_ACCESS_DENIED → c ≠ ERROR_INVALID_HANDLE → c ≠ ERROR_PATH_NOT_FOUND →
      c ≠ ERROR_FILE_NOT_FOUND → c ≠ ERROR_SERVICE_ALREADY_RUNNING →
      c ≠ ERROR_SERVICE_NOT_ACTIVE → c ≠ ERROR_SERVICE_DATABASE_LOCKED →
      c ≠ ERROR_SERVICE_DEPENDENCY_DELETED → c ≠ ERROR_SERVICE_DEPENDENCY_FAIL →
      c ≠ ERROR_SERVICE_DISABLED → c ≠ ERROR_SERVICE_LOGON_FAILED →
      c ≠ ERROR_SERVICE_MARKED_FOR_DELETE → c ≠ ERROR_SERVICE_NO_THREAD →
      c ≠ ERROR_SERVICE_REQUEST_TIMEOUT → ControlServiceError.fromCode c s = .Unknown c s) ∧
    (∀ s,
      DeleteServiceError.fromCode ERROR_ACCESS_DENIED s =
        .AccessDenied ERROR_ACCESS_DENIED s ∧
      DeleteServiceError.fromCode ERROR_SERVICE_MARKED_FOR_DELETE s =
        .ErrorServiceMarkedForDelete ERROR_SERVICE_MARKED_FOR_DELETE s ∧
      DeleteServiceError.fromCode ERROR_INVALID_HANDLE s =
        .InvalidHandle ERROR_INVALID_HANDLE s) ∧
    (∀ c s, c ≠ ERROR_ACCESS_DENIED → c ≠ ERROR_SERVICE_MARKED_FOR_DELETE →
      c ≠ ERROR_INVALID_HANDLE → DeleteServiceError.fromCode c s = .Unknown c s) ∧
    (∀ s,
      UpdateServiceError.fromCode ERROR_ACCESS_DENIED s =
        .AccessDenied ERROR_ACCESS_DENIED s ∧
      UpdateServiceError.fromCode ERROR_CIRCULAR_DEPENDENCY s =
        .CircularDependency ERROR_CIRCULAR_DEPENDENCY s ∧
      UpdateServiceError.fromCode ERROR_DUPLICATE_SERVICE_NAME s =
        .DuplicateServiceName ERROR_DUPLICATE_SERVICE_NAME s ∧
      UpdateServiceError.fromCode ERROR_INVALID_HANDLE s =
        .InvalidHandle ERROR_INVALID_HANDLE s ∧
      UpdateServiceError.fromCode ERROR_INVALID_PARAMETER s =
        .InvalidParameter ERROR_INVALID_PARAMETER s ∧
      UpdateServiceError.fromCode ERROR_INVALID_SERVICE_ACCOUNT s =
        .InvalidServiceAccount ERROR_INVALID_SERVICE_ACCOUNT s ∧
      UpdateServiceError.fromCode ERROR_SERVICE_MARKED_FOR_DELETE s =
        .ServiceMarkedForDelete ERROR_SERVICE_MARKED_FOR_DELETE s) ∧
    (∀ c s, c ≠ ERROR_ACCESS_DENIED → c ≠ ERROR_CIRCULAR_DEPENDENCY →
      c ≠ ERROR_DUPLICATE_SERVICE_NAME → c ≠ ERROR_INVALID_HANDLE →
      c ≠ ERROR_INVALID_PARAMETER → c ≠ ERROR_INVALID_SERVICE_ACCOUNT →
      c ≠ ERROR_SERVICE_MARKED_FOR_DELETE → UpdateServiceError.fromCode c s = .Unknown c s) ∧
    (∀ s,
      QueryServiceError.fromCode ERROR_ACCESS_DENIED s =
        .AccessDenied ERROR_ACCESS_DENIED s ∧
      QueryServiceError.fromCode ERROR_INVALID_HANDLE s =
        .InvalidHandle ERROR_INVALID_HANDLE s) ∧
    (∀ c s, c ≠ ERROR_ACCESS_DENIED → c ≠ ERROR_INVALID_HANDLE →
      QueryServiceError.fromCode c s = .Unknown c s) :=
  ⟨openFrom_table, openFrom_unknown, createFrom_table, createFrom_unknown, managerFrom_table,
    managerFrom_unknown, managerFrom_no_invalid_handle, controlFrom_table, controlFrom_unknown,
    deleteFrom_table, deleteFrom_unknown, updateFrom_table, updateFrom_unknown, queryFrom_table,
    queryFrom_unknown⟩

/-- C1 witness: concrete instances, including the outside-table catch-all at
code 9999 for each family. -/
theorem claim_C1_witness :
    OpenServiceError.fromCode 9999 "a" = .Unknown 9999 "a" ∧
    CreateServiceError.fromCode 9999 "b" = .Unknown 9999 "b" ∧
    ServiceManagerError.fromCode 9999 "c" = .Unknown 9999 "c" ∧
    ControlServiceError.fromCode 9999 "d" = .Unknown 9999 "d" ∧
    DeleteServiceError.fromCode 9999 "e" = .Unknown 9999 "e" ∧
    UpdateServiceError.fromCode 9999 "f" = .Unknown 9999 "f" ∧
    QueryServiceError.fromCode 9999 "g" = .Unknown 9999 "g" :=
  ⟨claim_C1.2.1 9999 "a" (by decide) (by decide) (by decide) (by decide),
    claim_C1.2.2.2.1 9999 "b" (by decide) (by decide) (by decide) (by decide) (by decide)
      (by decide) (by decide) (by decide) (by decide),
    claim_C1.2.2.2.2.2.1 9999 "c" (by decide) (by decide) (by decide),
    claim_C1.2.2.2.2.2.2.2.2.1 9999 "d" (by decide) (by decide) (by decide) (by decide)
      (by decide) (by decide) (by decide) (by decide) (by decide) (by decide) (by decide)
      (by decide) (by decide) (by decide),
    claim_C1.2.2.2.2.2.2.2.2.2.2.1 9999 "e" (by decide) (by decide) (by decide),
    claim_C1.2.2.2.2.2.2.2.2.2.2.2.2.1 9999 "f" (by decide) (by decide) (by decide) (by decide)
      (by decide) (by decide) (by decide),
    claim_C1.2.2.2.2.2.2.2.2.2.2.2.2.2.2 9999 "g" (by decide) (by decide)⟩

/-! ## Service enums (src/service.rs)

Each Rust enum has explicit `repr(u32)` discriminants, used by the facade
as `x as u32`; `code` is that cast.  The source provides `TryFrom<u32>`
impls for `ServiceType`, `ServiceStartType` and `ServiceState` only. -/

def SERVICE_KERNEL_DRIVER : Nat := 1
def SERVICE_FILE_SYSTEM_DRIVER : Nat := 2
def SERVICE_ADAPTER : Nat := 4
def SERVICE_RECOGNIZER_DRIVER : Nat := 8
def SERVICE_WIN32_OWN_PROCESS : Nat := 16
def SERVICE_WIN32_SHARE_PROCESS : Nat := 32
def SERVICE_BOOT_START : Nat := 0
def SERVICE_SYSTEM_START : Nat := 1
def SERVICE_AUTO_START : Nat := 2
def SERVICE_DEMAND_START : Nat := 3
def SERVICE_DISABLED : Nat := 4
def SERVICE_STOPPED : Nat := 1
def SERVICE_START_PENDING : Nat := 2
def SERVICE_STOP_PENDING : Nat := 3
def SERVICE_RUNNING : Nat := 4
def SERVICE_CONTINUE_PENDING : Nat := 5
def SERVICE_PAUSE_PENDING : Nat := 6
def SERVICE_PAUSED : Nat := 7
def SERVICE_CONTROL_STOP : Nat := 1
def SERVICE_CONTROL_PAUSE : Nat := 2

inductive ServiceErrorControl where
  | ErrorCritical
  | ErrorIgnore
  | ErrorNormal
  | ErrorSevere
deriving DecidableEq, Repr, Fintype

def ServiceErrorControl.code : ServiceErrorControl → Nat
  | .ErrorCritical => 3
  | .ErrorIgnore => 0
  | .ErrorNormal => 1
  | .ErrorSevere => 2

inductive ServiceStartType where
  | AutoStart
  | BootStart
  | DemandStart
  | Disabled
  | SystemStart
deriving DecidableEq, Repr, Fintype

def ServiceStartType.code : ServiceStartType → Nat
  | .AutoStart => 2
  | .BootStart => 0
  | .DemandStart => 3
  | .Disabled => 4
  | .SystemStart => 1

inductive ServiceType where
  | Adapter
  | FileSystemDriver
  | KernelDriver
  | RecognizerDriver
  | Win32OwnProcess
  | Win32ShareProcess
deriving DecidableEq, Repr, Fintype

def ServiceType.code : ServiceType → Nat
  | .Adapter => 4
  | .FileSystemDriver => 2
  | .KernelDriver => 1
  | .RecognizerDriver => 8
  | .Win32OwnProcess => 16
  | .Win32ShareProcess => 32

inductive ServiceState where
  | Stopped
  | StartPending
  | StopPending
  | Running
  | ContinuePending
  | PausePending
  | Paused
deriving DecidableEq, Repr, Fintype

def ServiceState.code : ServiceState → Nat
  | .Stopped => 1
  | .StartPending => 2
  | .StopPending => 3
  | .Running => 4
  | .ContinuePending => 5
  | .PausePending => 6
  | .Paused => 7

def ServiceType.try_from (value : Nat) : Except QueryServiceError ServiceType :=
  if value = SERVICE_ADAPTER then .ok .Adapter
  else if value = SERVICE_FILE_SYSTEM_DRIVER then .ok .FileSystemDriver
  else if value = SERVICE_KERNEL_DRIVER then .ok .KernelDriver
  else if value = SERVICE_RECOGNIZER_DRIVER then .ok .RecognizerDriver
  else if value = SERVICE_WIN32_OWN_PROCESS then .ok .Win32OwnProcess
  else if value = SERVICE_WIN32_SHARE_PROCESS then .ok .Win32ShareProcess
  else .error (QueryServiceError.fromCode 0 "invalid service type")

def ServiceStartType.try_from (value : Nat) : Except QueryServiceError ServiceStartType :=
  if value = SERVICE_AUTO_START then .ok .AutoStart
  else if value = SERVICE_BOOT_START then .ok .BootStart
  else if value = SERVICE_DEMAND_START then .ok .DemandStart
  else if value = SERVICE_DISABLED then .ok .Disabled
  else if value = SERVICE_SYSTEM_START then .ok .SystemStart
  else .error (QueryServiceError.fromCode 0 "invalid service start type")

def ServiceState.try_from (value : Nat) : Except QueryServiceError ServiceState :=
  if value = SERVICE_STOPPED then .ok .Stopped
  else if value = SERVICE_START_PENDING then .ok .StartPending
  else if value = SERVICE_STOP_PENDING then .ok .StopPending
  else if value = SERVICE_RUNNING then .ok .Running
  else if value = SERVICE_CONTINUE_PENDING then .ok .ContinuePending
  else if value = SERVICE_PAUSE_PENDING then .ok .PausePending
  else if value = SERVICE_PAUSED then .ok .Paused
  else .error (QueryServiceError.fromCode 0 "invalid service state")

/-- Modelled from the spec: the source defines no decoder (`TryFrom<u32>`
impl) for `ServiceErrorControl`; spec sections 3 and 8 state that each
enumerated field's numeric mapping is bijective for recognized values and
that unrecognized numeric values surface as a query error.  Modelled in the
same shape as the source's three decoders, over the section 6 codes
(Ignore 0, Normal 1, Severe 2, Critical 3). -/
def ServiceErrorControl.try_from (value : Nat) : Except QueryServiceError ServiceErrorControl :=
  if value = 0 then .ok .ErrorIgnore
  else if value = 1 then .ok .ErrorNormal
  else if value = 2 then .ok .ErrorSevere
  else if value = 3 then .ok .ErrorCritical
  else .error (QueryServiceError.fromCode 0 "invalid service error control")

/-- C2: the numeric codes match the spec's section 6 table; for every value
of the four enums, encoding then decoding returns the original value; and
decoding any numeric value outside a type's recognized codes fails with a
query error (the facade-internal `Unknown 0` query error), never coercing to
some value.  The `ServiceErrorControl` decoder is modelled from the spec (the
source defines none). -/
theorem claim_C2 :
    (ServiceType.code .KernelDriver = 1 ∧ ServiceType.code .FileSystemDriver = 2 ∧
      ServiceType.code .Adapter = 4 ∧ ServiceType.code .RecognizerDriver = 8 ∧
      ServiceType.code .Win32OwnProcess = 16 ∧ ServiceType.code .Win32ShareProcess = 32 ∧
      ServiceStartType.code .BootStart = 0 ∧ ServiceStartType.code .SystemStart = 1 ∧
      ServiceStartType.code .AutoStart = 2 ∧ ServiceStartType.code .DemandStart = 3 ∧
      ServiceStartType.code .Disabled = 4 ∧
      ServiceErrorControl.code .ErrorIgnore = 0 ∧ ServiceErrorControl.code .ErrorNormal = 1 ∧
      ServiceErrorControl.code .ErrorSevere = 2 ∧ ServiceErrorControl.code .ErrorCritical = 3 ∧
      ServiceState.code .Stopped = 1 ∧ ServiceState.code .StartPending = 2 ∧
      ServiceState.code .StopPending = 3 ∧ ServiceState.code .Running = 4 ∧
      ServiceState.code .ContinuePending = 5 ∧ ServiceState.code .PausePending = 6 ∧
      ServiceState.code .Paused = 7) ∧
    (∀ t : ServiceType, ServiceType.try_from t.code = .ok t) ∧
    (∀ t : ServiceStartType, ServiceStartType.try_from t.code = .ok t) ∧
    (∀ t : ServiceErrorControl, ServiceErrorControl.try_from t.code = .ok t) ∧
    (∀ t : ServiceState, ServiceState.try_from t.code = .ok t) ∧
    (∀ n, (∀ t : ServiceType, t.code ≠ n) →
      ServiceType.try_from n = .error (.Unknown 0 "invalid service type")) ∧
    (∀ n, (∀ t : ServiceStartType, t.code ≠ n) →
      ServiceStartType.try_from n = .error (.Unknown 0 "invalid service start type")) ∧
    (∀ n, (∀ t : ServiceErrorControl, t.code ≠ n) →
      ServiceErrorControl.try_from n = .error (.Unknown 0 "invalid service error control")) ∧
    (∀ n, (∀ t : ServiceState, t.code ≠ n) →
      ServiceState.try_from n = .error (.Unknown 0 "invalid service state")) := by
  refine ⟨by decide, fun t => by cases t <;> rfl, fun t => by cases t <;> rfl,
    fun t => by cases t <;> rfl, fun t => by cases t <;> rfl, ?_, ?_, ?_, ?_⟩
  · intro n hn
    unfold ServiceType.try_from
    rw [if_neg (Ne.symm (hn .Adapter) : n ≠ SERVICE_ADAPTER),
      if_neg (Ne.symm (hn .FileSystemDriver) : n ≠ SERVICE_FILE_SYSTEM_DRIVER),
      if_neg (Ne.symm (hn .KernelDriver) : n ≠ SERVICE_KERNEL_DRIVER),
      if_neg (Ne.symm (hn .RecognizerDriver) : n ≠ SERVICE_RECOGNIZER_DRIVER),
      if_neg (Ne.symm (hn .Win32OwnProcess) : n ≠ SERVICE_WIN32_OWN_PROCESS),
      if_neg (Ne.symm (hn .Win32ShareProcess) : n ≠ SERVICE_WIN32_SHARE_PROCESS)]
    rfl
  · intro n hn
    unfold ServiceStartType.try_from
    rw [if_neg (Ne.symm (hn .AutoStart) : n ≠ SERVICE_AUTO_START),
      if_neg (Ne.symm (hn .BootStart) : n ≠ SERVICE_BOOT_START),
      if_neg (Ne.symm (hn .DemandStart) : n ≠ SERVICE_DEMAND_START),
      if_neg (Ne.symm (hn .Disabled) : n ≠ SERVICE_DISABLED),
      if_neg (Ne.symm (hn .SystemStart) : n ≠ SERVICE_SYSTEM_START)]
    rfl
  · intro n hn
    unfold ServiceErrorControl.try_from
    rw [if_neg (Ne.symm (hn .ErrorIgnore) : n ≠ 0),
      if_neg (Ne.symm (hn .ErrorNormal) : n ≠ 1),
      if_neg (Ne.symm (hn .ErrorSevere) : n ≠ 2),
      if_neg (Ne.symm (hn .ErrorCritical) : n ≠ 3)]
    rfl
  · intro n hn
    unfold ServiceState.try_from
    rw [if_neg (Ne.symm (hn .Stopped) : n ≠ SERVICE_STOPPED),
      if_neg (Ne.symm (hn .StartPending) : n ≠ SERVICE_START_PENDING),
      if_neg (Ne.symm (hn .StopPending) : n ≠ SERVICE_STOP_PENDING),
      if_neg (Ne.symm (hn .Running) : n ≠ SERVICE_RUNNING),
      if_neg (Ne.symm (hn .ContinuePending) : n ≠ SERVICE_CONTINUE_PENDING),
      if_neg (Ne.symm (hn .PausePending) : n ≠ SERVICE_PAUSE_PENDING),
      if_neg (Ne.symm (hn .Paused) : n ≠ SERVICE_PAUSED)]
    rfl

/-- C2 witness: round trip at a concrete value and rejection of the
unrecognized code 9999 for each of the four enums. -/
theorem claim_C2_witness :
    ServiceType.try_from (ServiceType.code .KernelDriver) = .ok .KernelDriver ∧
    ServiceType.try_from 9999 = .error (.Unknown 0 "invalid service type") ∧
    ServiceStartType.try_from 9999 = .error (.Unknown 0 "invalid service start type") ∧
    ServiceErrorControl.try_from 9999 = .error (.Unknown 0 "invalid service error control") ∧
    ServiceState.try_from 9999 = .error (.Unknown 0 "invalid service state") :=
  ⟨claim_C2.2.1 .KernelDriver,
    claim_C2.2.2.2.2.2.1 9999 (by decide),
    claim_C2.2.2.2.2.2.2.1 9999 (by decide),
    claim_C2.2.2.2.2.2.2.2.1 9999 (by decide),
    claim_C2.2.2.2.2.2.2.2.2 9999 (by decide)⟩

/-! ## Blocking control loop (src/service.rs, `control_blocking`)

The loop first runs the control closure, propagating its error.  It then
repeatedly calls `state()`; if the observed state equals the target it
returns `Ok(())`, otherwise it sleeps `Duration::from_millis(100)` and polls
again; if `state()` fails it returns `ControlServiceError::Unknown`
carrying `get_last_error()` (the thread's last OS code at that point).

The backend is a list of poll outcomes, one per `state()` call:
`PollResult.ok s` is a successful query decoding to `s`; `PollResult.fail c`
is a failed query with `get_last_error() = c` when the loop reads it.  The
loop's result is `none` when the trace is exhausted without a decision (the
real loop would still be polling — it has no timeout), otherwise `some` of
the Rust result, with `Ok` carrying the number of sleeps performed. -/

def POLL_SLEEP_MILLIS : Nat := 100

inductive PollResult where
  | ok (s : ServiceState)
  | fail (osCode : Nat)
deriving DecidableEq, Repr

def addSleep : Except ControlServiceError Nat → Except ControlServiceError Nat
  | .ok k => .ok (k + 1)
  | .error e => .error e

def pollLoop (target : ServiceState) :
    List PollResult → Option (Except ControlServiceError Nat)
  | [] => none
  | .ok s :: rest =>
    if s = target then some (.ok 0)
    else (pollLoop target rest).map addSleep
  | .fail c :: _ =>
    some (.error (.Unknown c "[control_blocking] failed to get service state"))

def control_blocking (target : ServiceState) (ctl : Except ControlServiceError Unit)
    (polls : List PollResult) : Option (Except ControlServiceError Nat) :=
  match ctl with
  | .error e => some (.error e)
  | .ok _ => pollLoop target polls

def start_blocking (ctl : Except ControlServiceError Unit) (polls : List PollResult) :
    Option (Except ControlServiceError Nat) :=
  control_blocking .Running ctl polls

def stop_blocking (ctl : Except ControlServiceError Unit) (polls : List PollResult) :
    Option (Except ControlServiceError Nat) :=
  control_blocking .Stopped ctl polls

def pause_blocking (ctl : Except ControlServiceError Unit) (polls : List PollResult) :
    Option (Except ControlServiceError Nat) :=
  control_blocking .Paused ctl polls

theorem addSleep_iterate_ok : ∀ n k, addSleep^[n] (.ok k) = .ok (k + n) := by
  intro n
  induction n with
  | zero => intro k; rfl
  | succ m ih =>
    intro k
    rw [Function.iterate_succ_apply, addSleep]
    rw [ih (k + 1)]
    congr 1
    omega

theorem addSleep_iterate_error : ∀ n e, addSleep^[n] (.error e) = .error e := by
  intro n
  induction n with
  | zero => intro e; rfl
  | succ m ih =>
    intro e
    rw [Function.iterate_succ_apply, addSleep]
    exact ih e

theorem pollLoop_append (target : ServiceState) : ∀ (pre rest : List PollResult),
    (∀ r ∈ pre, ∃ s, r = PollResult.ok s ∧ s ≠ target) →
    pollLoop target (pre ++ rest) = (pollLoop target rest).map addSleep^[pre.length] := by
  intro pre
  induction pre with
  | nil =>
    intro rest _
    simp [Function.iterate_zero]
  | cons r pre2 ih =>
    intro rest h
    obtain ⟨s, hr, hs⟩ := h r (List.mem_cons_self r pre2)
    subst hr
    have h2 : ∀ r ∈ pre2, ∃ s, r = PollResult.ok s ∧ s ≠ target := fun r hr =>
      h r (List.mem_cons_of_mem _ hr)
    rw [List.cons_append]
    show pollLoop target (PollResult.ok s :: (pre2 ++ rest)) = _
    rw [pollLoop, if_neg hs, ih rest h2]
    rw [Option.map_map, List.length_cons, Function.iterate_succ']

theorem pollLoop_ok_index (target : ServiceState) : ∀ (polls : List PollResult) (k : Nat),
    pollLoop target polls = some (.ok k) →
    polls.get? k = some (.ok target) ∧
    ∀ j, j < k → ∃ s, polls.get? j = some (PollResult.ok s) ∧ s ≠ target := by
  intro polls
  induction polls with
  | nil => intro k h; simp [pollLoop] at h
  | cons r rest ih =>
    intro k h
    match r with
    | .fail c => simp [pollLoop] at h
    | .ok s =>
      by_cases hs : s = target
      · rw [pollLoop, if_pos hs] at h
        have hk : k = 0 := by
          have := Option.some.inj h
          cases this
          rfl
        subst hk
        subst hs
        exact ⟨rfl, fun j hj => absurd hj (Nat.not_lt_zero j)⟩
      · rw [pollLoop, if_neg hs] at h
        match hrest : pollLoop target rest with
        | none => rw [hrest] at h; simp [Option.map] at h
        | some (.error e) => rw [hrest] at h; simp [Option.map, addSleep] at h
        | some (.ok m) =>
          rw [hrest] at h
          simp only [Option.map, addSleep] at h
          have hk : k = m + 1 := by
            have := Option.some.inj h
            cases this
            rfl
          subst hk
          obtain ⟨h1, h2⟩ := ih m hrest
          refine ⟨h1, fun j hj => ?_⟩
          match j with
          | 0 => exact ⟨s, rfl, hs⟩
          | j2 + 1 => exact h2 j2 (Nat.lt_of_succ_lt_succ hj)

/-- C3: each blocking control operation first runs its non-blocking
operation (start for target Running, stop for Stopped, pause for Paused),
propagating its error unchanged; it then polls `state()`, sleeping
`POLL_SLEEP_MILLIS` (100) between polls, returning `Ok` exactly when the
observed state equals the target, after exactly one sleep per preceding
non-target observation (so at least N sleeps when the target appears only at
poll N); every non-target state keeps polling, a trace of only non-target
observations never returns (no timeout); a failed `state()` query during
polling yields `ControlServiceError.Unknown` carrying the last OS code
(never a query-family error — the result type is the control family). -/
theorem claim_C3 :
    POLL_SLEEP_MILLIS = 100 ∧
    (∀ e polls, start_blocking (.error e) polls = some (.error e) ∧
      stop_blocking (.error e) polls = some (.error e) ∧
      pause_blocking (.error e) polls = some (.error e)) ∧
    (∀ pre rest, (∀ r ∈ pre, ∃ s, r = PollResult.ok s ∧ s ≠ ServiceState.Running) →
      start_blocking (.ok ()) (pre ++ PollResult.ok ServiceState.Running :: rest) =
        some (.ok pre.length)) ∧
    (∀ pre rest, (∀ r ∈ pre, ∃ s, r = PollResult.ok s ∧ s ≠ ServiceState.Stopped) →
      stop_blocking (.ok ()) (pre ++ PollResult.ok ServiceState.Stopped :: rest) =
        some (.ok pre.length)) ∧
    (∀ pre rest, (∀ r ∈ pre, ∃ s, r = PollResult.ok s ∧ s ≠ ServiceState.Paused) →
      pause_blocking (.ok ()) (pre ++ PollResult.ok ServiceState.Paused :: rest) =
        some (.ok pre.length)) ∧
    (∀ target pre c rest, (∀ r ∈ pre, ∃ s, r = PollResult.ok s ∧ s ≠ target) →
      control_blocking target (.ok ()) (pre ++ PollResult.fail c :: rest) =
        some (.error (.Unknown c "[control_blocking] failed to get service state"))) ∧
    (∀ target polls, (∀ r ∈ polls, ∃ s, r = PollResult.ok s ∧ s ≠ target) →
      control_blocking target (.ok ()) polls = none) ∧
    (∀ target polls k, pollLoop target polls = some (.ok k) →
      polls.get? k = some (.ok target) ∧
      ∀ j, j < k → ∃ s, polls.get? j = some (PollResult.ok s) ∧ s ≠ target) := by
  have conv : ∀ (target : ServiceState) pre rest,
      (∀ r ∈ pre, ∃ s, r = PollResult.ok s ∧ s ≠ target) →
      control_blocking target (.ok ()) (pre ++ PollResult.ok target :: rest) =
        some (.ok pre.length) := by
    intro target pre rest h
    show pollLoop target (pre ++ PollResult.ok target :: rest) = _
    rw [pollLoop_append target pre _ h]
    rw [pollLoop, if_pos rfl]
    simp only [Option.map]
    rw [addSleep_iterate_ok]
    simp
  refine ⟨rfl, fun e polls => ⟨rfl, rfl, rfl⟩, fun pre rest h => conv _ pre rest h,
    fun pre rest h => conv _ pre rest h, fun pre rest h => conv _ pre rest h, ?_, ?_,
    pollLoop_ok_index⟩
  · intro target pre c rest h
    show pollLoop target (pre ++ PollResult.fail c :: rest) = _
    rw [pollLoop_append target pre _ h, pollLoop]
    simp only [Option.map]
    rw [addSleep_iterate_error]
  · intro target polls h
    show pollLoop target polls = none
    have := pollLoop_append target polls [] h
    rw [List.append_nil] at this
    rw [this]
    rfl

/-- C3 witness: a backend that reports StartPending twice and then Running
makes `start_blocking` return `Ok` after exactly 2 sleeps; a backend whose
second poll fails with OS code 5 makes `stop_blocking`'s loop return
`Unknown 5`; a control failure is propagated unchanged. -/
theorem claim_C3_witness :
    start_blocking (.ok ())
      [PollResult.ok .StartPending, PollResult.ok .StartPending, PollResult.ok .Running] =
      some (.ok 2) ∧
    control_blocking .Stopped (.ok ()) [PollResult.ok .Running, PollResult.fail 5] =
      some (.error (.Unknown 5 "[control_blocking] failed to get service state")) ∧
    start_blocking (.error (.ServiceDisabled 1058 "x")) [] =
      some (.error (.ServiceDisabled 1058 "x")) :=
  ⟨claim_C3.2.2.1 [PollResult.ok .StartPending, PollResult.ok .StartPending] [] (by decide),
    claim_C3.2.2.2.2.2.1 .Stopped [PollResult.ok .Running] 5 [] (by decide),
    (claim_C3.2.1 (.ServiceDisabled 1058 "x") []).1⟩

/-! ## Config query and rewrite (src/service.rs, `get_config`, `set_start_type`)

`QUERY_SERVICE_CONFIGW` is the fixed-layout header of the buffer
`QueryServiceConfigW` fills: three numeric fields, the tag id, and pointers
to in-buffer wide strings (a nullable pointer is `Option String`).

`QueryPrim` is the backend for the two `QueryServiceConfigW` calls the
facade makes: `ok1`/`err1`/`needed1` are the outcome, last-error and
written byte count of the first call (made with a null buffer and zero
length); `ok2`/`err2`/`cfg2` give the outcome of a second call as a
function of the buffer length passed to it.  `get_config` returns the Rust
result paired with the list of buffer lengths used for second calls, so a
theorem can state that exactly one second call is made and with exactly the
required size.

`ChangeConfigArgs` records the arguments of a `ChangeServiceConfigW` call
(the service name is not among them: the ABI cannot rename a service);
`set_start_type` and `update_config` return the Rust result paired with the
list of such calls performed.  When `get_config` fails, `set_start_type`
reads `get_last_error()` afresh; no OS call intervenes between the failing
query and that read, so the value is the code already carried by the query
error, written `e.code` here. -/

structure QUERY_SERVICE_CONFIGW where
  dwServiceType : Nat
  dwStartType : Nat
  dwErrorControl : Nat
  lpBinaryPathName : Option String
  lpLoadOrderGroup : Option String
  dwTagId : Nat
  lpDependencies : Option String
  lpServiceStartName : Option String
  lpDisplayName : Option String
deriving DecidableEq, Repr

structure QueryPrim where
  ok1 : Bool
  err1 : Nat
  needed1 : Nat
  ok2 : Nat → Bool
  err2 : Nat → Nat
  cfg2 : Nat → QUERY_SERVICE_CONFIGW

def get_config (handle : Option Nat) (p : QueryPrim) :
    Except QueryServiceError QUERY_SERVICE_CONFIGW × List Nat :=
  match handle with
  | none => (.error (.InvalidHandle 0 "[get_config] invalid service handle"), [])
  | some _ =>
    if p.ok1 = false ∧ p.err1 ≠ ERROR_INSUFFICIENT_BUFFER then
      (.error (QueryServiceError.fromCode p.err1 "[get_config] QueryServiceConfig failed"), [])
    else if p.ok2 p.needed1 = false then
      (.error (QueryServiceError.fromCode (p.err2 p.needed1)
        "[get_config] QueryServiceConfig failed"), [p.needed1])
    else (.ok (p.cfg2 p.needed1), [p.needed1])

structure ChangeConfigArgs where
  dwServiceType : Nat
  dwStartType : Nat
  dwErrorControl : Nat
  lpBinaryPathName : Option String
  lpLoadOrderGroup : Option String
  lpdwTagId : Option Nat
  lpDependencies : Option String
  lpServiceStartName : Option String
  lpPassword : Option String
  lpDisplayName : Option String
deriving DecidableEq, Repr

def set_start_type (handle : Option Nat) (p : QueryPrim) (changeOk : Bool) (changeErr : Nat)
    (start_type : ServiceStartType) : Except UpdateServiceError Unit × List ChangeConfigArgs :=
  match handle with
  | none => (.error (.InvalidHandle 0 "[set_start_type] invalid service handle"), [])
  | some h =>
    match (get_config (some h) p).1 with
    | .error e =>
      (.error (.AccessDenied e.code "[set_start_type] failed to get service config"), [])
    | .ok config =>
      let args : ChangeConfigArgs :=
        { dwServiceType := config.dwServiceType
          dwStartType := start_type.code
          dwErrorControl := config.dwErrorControl
          lpBinaryPathName := config.lpBinaryPathName
          lpLoadOrderGroup := config.lpLoadOrderGroup
          lpdwTagId := some config.dwTagId
          lpDependencies := config.lpDependencies
          lpServiceStartName := config.lpServiceStartName
          lpPassword := none
          lpDisplayName := config.lpDisplayName }
      if changeOk then (.ok (), [args])
      else (.error (UpdateServiceError.fromCode changeErr
        "[set_start_type] ChangeServiceConfig failed"), [args])

/-- C6: the config read follows the two-call buffer-sizing protocol: the
first call is made with a null buffer and zero length; if it fails with any
error other than insufficient-buffer, a `QueryServiceError` built from that
code is returned and no second call is made; otherwise exactly one second
call is made with a buffer of exactly the byte count the first call reported;
if that second call fails its error is surfaced, and on success the
configuration record from the buffer is returned. -/
theorem claim_C6 : ∀ (h : Nat) (p : QueryPrim),
    (p.ok1 = false → p.err1 ≠ ERROR_INSUFFICIENT_BUFFER →
      get_config (some h) p =
        (.error (QueryServiceError.fromCode p.err1 "[get_config] QueryServiceConfig failed"),
          [])) ∧
    ((p.ok1 = true ∨ p.err1 = ERROR_INSUFFICIENT_BUFFER) →
      (get_config (some h) p).2 = [p.needed1] ∧
      (p.ok2 p.needed1 = false →
        get_config (some h) p =
          (.error (QueryServiceError.fromCode (p.err2 p.needed1)
            "[get_config] QueryServiceConfig failed"), [p.needed1])) ∧
      (p.ok2 p.needed1 = true →
        get_config (some h) p = (.ok (p.cfg2 p.needed1), [p.needed1]))) := by
  intro h p
  constructor
  · intro h1 h2
    simp [get_config, h1, h2]
  · intro hor
    have hcond : ¬(p.ok1 = false ∧ p.err1 ≠ ERROR_INSUFFICIENT_BUFFER) := by
      rcases hor with h1 | h1 <;> simp [h1]
    refine ⟨?_, ?_, ?_⟩
    · by_cases h2 : p.ok2 p.needed1 = false <;> simp [get_config, hcond, h2]
    · intro h2
      simp [get_config, hcond, h2]
    · intro h2
      simp [get_config, hcond, h2]

/-- C4: `set_start_type` first reads the current configuration; on a
successful read it performs exactly one `ChangeServiceConfigW` call whose
arguments equal the read values in every field — service type, error
control, binary path, load-order group, dependencies, start account, display
name, and the tag id passed back through by reference — except the start
type, which is the requested one (password is null); if the read fails, the
result is `UpdateServiceError.AccessDenied` carrying the OS error code of
the failed read, and no `ChangeServiceConfigW` call is performed. -/
theorem claim_C4 : ∀ (h : Nat) (p : QueryPrim) (chOk : Bool) (chErr : Nat)
    (st : ServiceStartType),
    (∀ cfg, (get_config (some h) p).1 = .ok cfg →
      (set_start_type (some h) p chOk chErr st).2 =
        [{ dwServiceType := cfg.dwServiceType
           dwStartType := st.code
           dwErrorControl := cfg.dwErrorControl
           lpBinaryPathName := cfg.lpBinaryPathName
           lpLoadOrderGroup := cfg.lpLoadOrderGroup
           lpdwTagId := some cfg.dwTagId
           lpDependencies := cfg.lpDependencies
           lpServiceStartName := cfg.lpServiceStartName
           lpPassword := none
           lpDisplayName := cfg.lpDisplayName }]) ∧
    (∀ e, (get_config (some h) p).1 = .error e →
      set_start_type (some h) p chOk chErr st =
        (.error (.AccessDenied e.code "[set_start_type] failed to get service config"), [])) := by
  intro h p chOk chErr st
  constructor
  · intro cfg hcfg
    simp only [set_start_type, hcfg]
    cases chOk <;> simp
  · intro e he
    simp only [set_start_type, he]

def sampleConfig : QUERY_SERVICE_CONFIGW :=
  { dwServiceType := 1
    dwStartType := 3
    dwErrorControl := 1
    lpBinaryPathName := some "C:\\drv.sys"
    lpLoadOrderGroup := none
    dwTagId := 9
    lpDependencies := none
    lpServiceStartName := none
    lpDisplayName := some "drv" }

def sampleQueryOk : QueryPrim :=
  { ok1 := false
    err1 := ERROR_INSUFFICIENT_BUFFER
    needed1 := 64
    ok2 := fun _ => true
    err2 := fun _ => 0
    cfg2 := fun _ => sampleConfig }

def sampleQueryFail : QueryPrim :=
  { ok1 := false
    err1 := ERROR_ACCESS_DENIED
    needed1 := 0
    ok2 := fun _ => false
    err2 := fun _ => ERROR_ACCESS_DENIED
    cfg2 := fun _ => sampleConfig }

/-- C6 witness: a first call failing with access-denied is surfaced with no
second call; a first call failing with insufficient-buffer reporting 64
bytes leads to one second call with a 64-byte buffer returning the record. -/
theorem claim_C6_witness :
    get_config (some 7) sampleQueryFail =
      (.error (.AccessDenied 5 "[get_config] QueryServiceConfig failed"), []) ∧
    get_config (some 7) sampleQueryOk = (.ok sampleConfig, [64]) :=
  ⟨(claim_C6 7 sampleQueryFail).1 rfl (by decide),
    ((claim_C6 7 sampleQueryOk).2 (Or.inr rfl)).2.2 rfl⟩

/-- C4 witness: with a readable config (tag id 9, demand-start), setting
start type Disabled writes back every read field unchanged except the start
type; with a failing read, the result is access-denied carrying OS code 5
and no write happens. -/
theorem claim_C4_witness :
    (set_start_type (some 7) sampleQueryOk true 0 .Disabled).2 =
      [{ dwServiceType := 1
         dwStartType := 4
         dwErrorControl := 1
         lpBinaryPathName := some "C:\\drv.sys"
         lpLoadOrderGroup := none
         lpdwTagId := some 9
         lpDependencies := none
         lpServiceStartName := none
         lpPassword := none
         lpDisplayName := some "drv" }] ∧
    set_start_type (some 7) sampleQueryFail true 0 .Disabled =
      (.error (.AccessDenied 5 "[set_start_type] failed to get service config"), []) :=
  ⟨(claim_C4 7 sampleQueryOk true 0 .Disabled).1 sampleConfig rfl,
    (claim_C4 7 sampleQueryFail true 0 .Disabled).2
      (.AccessDenied 5 "[get_config] QueryServiceConfig failed") rfl⟩

/-! ## ServiceHandle operations (src/service.rs) and ServiceConfig

`encodeWide` models `U16CString::from_str`, which fails exactly when the
input contains an interior nul character.  Each operation that makes one OS
call returns its Rust result paired with the number of OS calls performed
(0 when the handle slot is empty, 1 otherwise), with the call outcome
supplied by explicit backend arguments. -/

def encodeWide (s : String) : Option String :=
  if s.toList.contains (Char.ofNat 0) then none else some s

structure ServiceConfig where
  service_name : String
  display_name : String
  binary_path : String
  service_type : ServiceType
  start_type : ServiceStartType
  error_control : ServiceErrorControl
deriving DecidableEq, Repr

structure ServiceHandle where
  handle : Option Nat
deriving DecidableEq, Repr

def ServiceHandle.new (h : Nat) : ServiceHandle := ⟨some h⟩

def update_config (handle : Option Nat) (changeOk : Bool) (changeErr : Nat)
    (options : ServiceConfig) : Except UpdateServiceError Unit × List ChangeConfigArgs :=
  match handle with
  | none => (.error (.InvalidHandle 0 "[update_config] invalid service handle"), [])
  | some _ =>
    match encodeWide options.display_name with
    | none => (.error (.InvalidParameter 0 "[update_config] invalid display_name"), [])
    | some display_name =>
      match encodeWide options.binary_path with
      | none => (.error (.InvalidParameter 0 "[update_config] invalid binary_path"), [])
      | some binary_path =>
        let args : ChangeConfigArgs :=
          { dwServiceType := options.service_type.code
            dwStartType := options.start_type.code
            dwErrorControl := options.error_control.code
            lpBinaryPathName := some binary_path
            lpLoadOrderGroup := none
            lpdwTagId := none
            lpDependencies := none
            lpServiceStartName := none
            lpPassword := none
            lpDisplayName := some display_name }
        if changeOk then (.ok (), [args])
        else (.error (UpdateServiceError.fromCode changeErr "[update_config] failed"), [args])

def delete (handle : Option Nat) (delOk : Bool) (delErr : Nat) :
    Except DeleteServiceError Unit × Nat :=
  match handle with
  | none => (.error (.InvalidHandle 0 "[delete] invalid service handle"), 0)
  | some _ =>
    if delOk then (.ok (), 1)
    else (.error (DeleteServiceError.fromCode delErr "[delete] DeleteService failed"), 1)

def start (handle : Option Nat) (startOk : Bool) (startErr : Nat) :
    Except ControlServiceError Unit × Nat :=
  match handle with
  | none => (.error (.InvalidHandle 0 "[start] invalid service handle"), 0)
  | some _ =>
    if startOk then (.ok (), 1)
    else (.error (ControlServiceError.fromCode startErr "[start] StartServiceW failed"), 1)

def ServiceHandle.control (handle : Option Nat) (ctl : Nat) (ctlOk : Bool) (ctlErr : Nat) :
    Except ControlServiceError Unit × Nat :=
  match handle with
  | none => (.error (.InvalidHandle 0 "[control] invalid service handle"), 0)
  | some _ =>
    if ctlOk then (.ok (), 1)
    else (.error (ControlServiceError.fromCode ctlErr "[control] ControlService failed"), 1)

def stop (handle : Option Nat) (ctlOk : Bool) (ctlErr : Nat) :
    Except ControlServiceError Unit × Nat :=
  ServiceHandle.control handle SERVICE_CONTROL_STOP ctlOk ctlErr

def pause (handle : Option Nat) (ctlOk : Bool) (ctlErr : Nat) :
    Except ControlServiceError Unit × Nat :=
  ServiceHandle.control handle SERVICE_CONTROL_PAUSE ctlOk ctlErr

def get_status (handle : Option Nat) (stOk : Bool) (stErr : Nat) (status : Nat) :
    Except QueryServiceError Nat × Nat :=
  match handle with
  | none => (.error (.InvalidHandle 0 "[get_status] invalid service handle"), 0)
  | some _ =>
    if stOk then (.ok status, 1)
    else (.error (QueryServiceError.fromCode stErr "[get_status] QueryServiceConfig failed"), 1)

def state (handle : Option Nat) (stOk : Bool) (stErr : Nat) (status : Nat) :
    Except QueryServiceError ServiceState × Nat :=
  let r := get_status handle stOk stErr status
  match r.1 with
  | .error e => (.error e, r.2)
  | .ok st => (ServiceState.try_from st, r.2)

def get_start_type (handle : Option Nat) (p : QueryPrim) :
    Except QueryServiceError ServiceStartType × List Nat :=
  let r := get_config handle p
  match r.1 with
  | .error e => (.error e, r.2)
  | .ok config => (ServiceStartType.try_from config.dwStartType, r.2)

/-- C10: `update_config` never reads the `service_name` field of the supplied
config: for any config, replacing its `service_name` by any string leaves the
result and the recorded `ChangeServiceConfigW` call (which has no
service-name argument — the ABI cannot rename) exactly the same. -/
theorem claim_C10 : ∀ (handle : Option Nat) (chOk : Bool) (chErr : Nat)
    (options : ServiceConfig) (name : String),
    update_config handle chOk chErr { options with service_name := name } =
      update_config handle chOk chErr options :=
  fun _ _ _ _ _ => rfl

/-! ## ServiceManager operations (src/service_manager.rs)

`ScmBackend` supplies the outcomes of `OpenServiceW` (by encoded name) and
`CreateServiceW` (by its argument list), `none` standing for a returned
null handle, plus the thread's current last-error values.  On an empty
manager handle slot the source builds `InvalidHandle` from
`get_last_error()` (the `lastError` field), not from 0.
`create_or_get` returns its result paired with a flag recording whether
`create_service` was invoked. -/

structure ScmBackend where
  lastError : Nat
  openService : String → Option Nat
  openErr : Nat
  createService : String → String → Nat → Nat → Nat → String → Option Nat
  createErr : Nat

def get_service (mgr : Option Nat) (b : ScmBackend) (service_name : String) :
    Except OpenServiceError ServiceHandle :=
  match mgr with
  | none => .error (.InvalidHandle b.lastError "[get_service] invalid service manager handle")
  | some _ =>
    match encodeWide service_name with
    | none => .error (.InvalidName 0 "invalid service named")
    | some name =>
      match b.openService name with
      | none => .error (OpenServiceError.fromCode b.openErr "[get_service] handle == 0")
      | some h => .ok (ServiceHandle.new h)

def create_service (mgr : Option Nat) (b : ScmBackend) (options : ServiceConfig) :
    Except CreateServiceError ServiceHandle :=
  match mgr with
  | none => .error (.InvalidHandle b.lastError "[create_service] invalid service manager handle")
  | some _ =>
    match encodeWide options.service_name with
    | none => .error (.InvalidName 0 "[create_service] invalid service name")
    | some service_name =>
      match encodeWide options.display_name with
      | none => .error (.InvalidName 0 "[create_service] invalid display name")
      | some display_name =>
        match encodeWide options.binary_path with
        | none => .error (.InvalidParameter 0 "[create_service] invalid binary path")
        | some binary_path =>
          match b.createService service_name display_name options.service_type.code
              options.start_type.code options.error_control.code binary_path with
          | none => .error (CreateServiceError.fromCode b.createErr "[create_service] handle == 0")
          | some h => .ok (ServiceHandle.new h)

def create_or_get (mgr : Option Nat) (b : ScmBackend) (options : ServiceConfig) :
    Except CreateServiceError ServiceHandle × Bool :=
  match get_service mgr b options.service_name with
  | .ok service_handle => (.ok service_handle, false)
  | .error _ => (create_service mgr b options, true)

/-- C5: `create_or_get` first tries `get_service` on the config's service
name; if that open succeeds, the returned handle is exactly the opened one,
`create_service` is never invoked, and every config field other than
`service_name` has no effect on the outcome; only if the open fails (for any
reason) does it return `create_service`'s result — so the only error it can
surface is that fallback's `CreateServiceError`, never the open error. -/
theorem claim_C5 : ∀ (mgr : Option Nat) (b : ScmBackend) (options : ServiceConfig),
    (∀ hdl, get_service mgr b options.service_name = .ok hdl →
      create_or_get mgr b options = (.ok hdl, false)) ∧
    (∀ o2 hdl, o2.service_name = options.service_name →
      get_service mgr b options.service_name = .ok hdl →
      create_or_get mgr b o2 = (.ok hdl, false)) ∧
    (∀ e, get_service mgr b options.service_name = .error e →
      create_or_get mgr b options = (create_service mgr b options, true)) := by
  intro mgr b options
  refine ⟨?_, ?_, ?_⟩
  · intro hdl h
    simp only [create_or_get, h]
  · intro o2 hdl hname h
    simp only [create_or_get, hname, h]
  · intro e h
    simp only [create_or_get, h]

def sampleCfg : ServiceConfig :=
  { service_name := "svc"
    display_name := "Svc"
    binary_path := "C:\\svc.sys"
    service_type := .KernelDriver
    start_type := .DemandStart
    error_control := .ErrorNormal }

def scmOpenOk : ScmBackend :=
  { lastError := 0
    openService := fun _ => some 42
    openErr := 0
    createService := fun _ _ _ _ _ _ => some 43
    createErr := 0 }

def scmOpenFail : ScmBackend :=
  { lastError := 0
    openService := fun _ => none
    openErr := ERROR_SERVICE_DOES_NOT_EXIST
    createService := fun _ _ _ _ _ _ => some 43
    createErr := 0 }

/-- C5 witness: when the open succeeds the pre-existing handle 42 is
returned and create is not called, for two configs sharing only the name;
when the open fails the result is the create fallback (handle 43). -/
theorem claim_C5_witness :
    create_or_get (some 1) scmOpenOk sampleCfg = (.ok (ServiceHandle.new 42), false) ∧
    create_or_get (some 1) scmOpenOk
        { sampleCfg with display_name := "Other", start_type := .Disabled } =
      (.ok (ServiceHandle.new 42), false) ∧
    create_or_get (some 1) scmOpenFail sampleCfg = (.ok (ServiceHandle.new 43), true) :=
  ⟨(claim_C5 (some 1) scmOpenOk sampleCfg).1 (ServiceHandle.new 42) rfl,
    (claim_C5 (some 1) scmOpenOk sampleCfg).2.1
      { sampleCfg with display_name := "Other", start_type := .Disabled }
      (ServiceHandle.new 42) rfl rfl,
    (claim_C5 (some 1) scmOpenFail sampleCfg).2.2
      (.ServiceDoesNotExist 1060 "[get_service] handle == 0") rfl⟩

def scmLast5 : ScmBackend :=
  { lastError := 5
    openService := fun _ => some 42
    openErr := 0
    createService := fun _ _ _ _ _ _ => some 43
    createErr := 0 }

/-- C9 counterexample: with the thread's last OS error equal to 5, invoking
`create_service` or `get_service` on a manager whose handle slot is empty
yields `InvalidHandle` carrying code 5 — the source passes `get_last_error()`
there, not the facade-internal code 0 the claim requires. -/
theorem claim_C9_counterexample :
    create_service none scmLast5 sampleCfg =
      .error (.InvalidHandle 5 "[create_service] invalid service manager handle") ∧
    get_service none scmLast5 "svc" =
      .error (.InvalidHandle 5 "[get_service] invalid service manager handle") ∧
    (5 : Nat) ≠ 0 :=
  ⟨rfl, rfl, by decide⟩

/-- C9 (amended): every `ServiceHandle` operation invoked on an empty handle
slot performs no OS call and fails with its family's `InvalidHandle`
carrying code 0 and a context string naming the operation; the
`ServiceManager` operations also perform no OS call and fail with
`InvalidHandle` naming the operation, but carry the thread's current
`get_last_error()` value instead of 0. -/
theorem claim_C9 : ∀ (chOk delOk sOk cOk stOk : Bool)
    (chErr delErr sErr cErr stErr status ctl : Nat) (p : QueryPrim)
    (options : ServiceConfig) (b : ScmBackend) (st : ServiceStartType) (name : String),
    update_config none chOk chErr options =
      (.error (.InvalidHandle 0 "[update_config] invalid service handle"), []) ∧
    set_start_type none p chOk chErr st =
      (.error (.InvalidHandle 0 "[set_start_type] invalid service handle"), []) ∧
    get_config none p =
      (.error (.InvalidHandle 0 "[get_config] invalid service handle"), []) ∧
    get_start_type none p =
      (.error (.InvalidHandle 0 "[get_config] invalid service handle"), []) ∧
    delete none delOk delErr =
      (.error (.InvalidHandle 0 "[delete] invalid service handle"), 0) ∧
    start none sOk sErr =
      (.error (.InvalidHandle 0 "[start] invalid service handle"), 0) ∧
    ServiceHandle.control none ctl cOk cErr =
      (.error (.InvalidHandle 0 "[control] invalid service handle"), 0) ∧
    stop none cOk cErr =
      (.error (.InvalidHandle 0 "[control] invalid service handle"), 0) ∧
    pause none cOk cErr =
      (.error (.InvalidHandle 0 "[control] invalid service handle"), 0) ∧
    get_status none stOk stErr status =
      (.error (.InvalidHandle 0 "[get_status] invalid service handle"), 0) ∧
    state none stOk stErr status =
      (.error (.InvalidHandle 0 "[get_status] invalid service handle"), 0) ∧
    create_service none b options =
      .error (.InvalidHandle b.lastError "[create_service] invalid service manager handle") ∧
    get_service none b name =
      .error (.InvalidHandle b.lastError "[get_service] invalid service manager handle") :=
  fun _ _ _ _ _ _ _ _ _ _ _ _ _ _ _ _ _ =>
    ⟨rfl, rfl, rfl, rfl, rfl, rfl, rfl, rfl, rfl, rfl, rfl, rfl, rfl⟩

/-! ## Privilege elevation (src/common.rs) and ServiceManager lifecycle

`set_privilege` opens the process token, registers a deferred `CloseHandle`
on it, encodes the privilege name with `U16CString::from_str(..).unwrap()`
(a name with an interior nul makes that unwrap panic — modelled as `none`),
looks up the LUID, and adjusts the token, checking only the adjust call's
return value; the backend's `adjustAllAssigned` flag (whether the OS
actually assigned every privilege on a successful return) is ignored by the
code.  The paired list is the `CloseHandle` trace of the token handle.

`ServiceManager.new` opens the SCM handle as a raw integer; the struct that
closes it on drop is only built after `set_privilege` succeeds, and the
constructor itself never calls `CloseServiceHandle` — its close trace (the
paired list, of `CloseServiceHandle` calls during construction) is empty on
every path, including the privilege-failure path where an SCM handle was
already open.  `drop` gives the `CloseServiceHandle` trace of destruction. -/

structure PrivBackend where
  openTokenOk : Bool
  tokenHandle : Nat
  lookupOk : Bool
  adjustRet : Bool
  adjustAllAssigned : Bool

def hasNul (s : String) : Bool := s.toList.contains (Char.ofNat 0)

def set_privilege (name : String) (b : PrivBackend) :
    Option (Except String Unit × List Nat) :=
  if b.openTokenOk = false then some (.error "OpenProcessToken failed", [])
  else
    match encodeWide name with
    | none => none
    | some _ =>
      if b.lookupOk = false then some (.error "LookupPrivilegeValueA failed", [b.tokenHandle])
      else if b.adjustRet = false then
        some (.error "AdjustTokenPrivileges failed", [b.tokenHandle])
      else some (.ok (), [b.tokenHandle])

structure NewBackend where
  openScm : Option Nat
  openErr : Nat
  priv : PrivBackend
  privErr : Nat

structure ServiceManager where
  handle : Option Nat
deriving DecidableEq, Repr

def ServiceManager.new (b : NewBackend) :
    Option (Except ServiceManagerError ServiceManager × List Nat) :=
  match b.openScm with
  | none =>
    some (.error (ServiceManagerError.fromCode b.openErr "[ServiceManager::new] handle == 0"),
      [])
  | some h =>
    match set_privilege "SeLoadDriverPrivilege" b.priv with
    | none => none
    | some (.error _, _) =>
      some (.error (.AccessDenied b.privErr "[ServiceManager::set_privilege] failed"), [])
    | some (.ok _, _) => some (.ok ⟨some h⟩, [])

def ServiceManager.drop (m : ServiceManager) : List Nat :=
  match m.handle with
  | some h => [h]
  | none => []

def ServiceHandle.drop (sh : ServiceHandle) : List Nat :=
  match sh.handle with
  | some h => [h]
  | none => []

def leakBackend : NewBackend :=
  { openScm := some 7
    openErr := 0
    priv :=
      { openTokenOk := true
        tokenHandle := 3
        lookupOk := true
        adjustRet := false
        adjustAllAssigned := true }
    privErr := 5 }

/-- C7 counterexample: when the SCM open succeeds with handle 7 and the
privilege-elevation step then fails, the constructor fails having made no
`CloseServiceHandle` call — the already-opened SCM handle 7 is not released
on that error path (it is a raw integer, not yet owned by the struct whose
drop closes it), contradicting the claim's final conjunct. -/
theorem claim_C7_counterexample :
    ServiceManager.new leakBackend =
      some (.error (.AccessDenied 5 "[ServiceManager::set_privilege] failed"), []) ∧
    (7 : Nat) ∉ ([] : List Nat) :=
  ⟨rfl, by decide⟩

/-- C7 (amended): for every successfully constructed `ServiceManager` or
`ServiceHandle` the close primitive is invoked exactly once, during
destruction; the constructor itself never invokes it — including on both
failure paths, so when construction fails after the SCM handle was opened
(the privilege-elevation step failed) the already-opened SCM handle is NOT
released: it leaks. -/
theorem claim_C7 : ∀ (b : NewBackend) (h hs : Nat),
    (ServiceHandle.new hs).drop = [hs] ∧
    (ServiceHandle.mk none).drop = [] ∧
    (b.openScm = none →
      ServiceManager.new b =
        some (.error (ServiceManagerError.fromCode b.openErr "[ServiceManager::new] handle == 0"),
          [])) ∧
    (b.openScm = some h → b.priv.openTokenOk = true → b.priv.lookupOk = true →
      b.priv.adjustRet = true →
      ServiceManager.new b = some (.ok (ServiceManager.mk (some h)), []) ∧
      (ServiceManager.mk (some h)).drop = [h]) ∧
    (b.openScm = some h →
      (b.priv.openTokenOk = false ∨ b.priv.lookupOk = false ∨ b.priv.adjustRet = false) →
      ServiceManager.new b =
        some (.error (.AccessDenied b.privErr "[ServiceManager::set_privilege] failed"), []) ∧
      h ∉ ([] : List Nat)) := by
  intro b h hs
  have henc : encodeWide "SeLoadDriverPrivilege" = some "SeLoadDriverPrivilege" := by decide
  refine ⟨rfl, rfl, ?_, ?_, ?_⟩
  · intro hb
    simp [ServiceManager.new, hb]
  · intro hb h1 h2 h3
    refine ⟨?_, rfl⟩
    simp [ServiceManager.new, hb, set_privilege, h1, h2, h3, henc]
  · intro hb hfail
    refine ⟨?_, by simp⟩
    rcases hfail with h1 | h1 | h1
    · simp [ServiceManager.new, hb, set_privilege, h1]
    · rcases h2 : b.priv.openTokenOk with _ | _
      · simp [ServiceManager.new, hb, set_privilege, h2]
      · simp [ServiceManager.new, hb, set_privilege, h1, h2, henc]
    · rcases h2 : b.priv.openTokenOk with _ | _
      · simp [ServiceManager.new, hb, set_privilege, h2]
      · rcases h3 : b.priv.lookupOk with _ | _
        · simp [ServiceManager.new, hb, set_privilege, h2, h3, henc]
        · simp [ServiceManager.new, hb, set_privilege, h1, h2, h3, henc]

/-- C7 witness: a successful construction over SCM handle 7 makes no close
call; its destruction closes exactly handle 7 once; the open-failure path
closes nothing. -/
theorem claim_C7_witness :
    ServiceManager.new
        { openScm := some 7
          openErr := 0
          priv :=
            { openTokenOk := true
              tokenHandle := 3
              lookupOk := true
              adjustRet := true
              adjustAllAssigned := true }
          privErr := 0 } =
      some (.ok (ServiceManager.mk (some 7)), []) ∧
    (ServiceManager.mk (some 7)).drop = [7] ∧
    ServiceManager.new
        { openScm := none
          openErr := 5
          priv :=
            { openTokenOk := true
              tokenHandle := 3
              lookupOk := true
              adjustRet := true
              adjustAllAssigned := true }
          privErr := 0 } =
      some (.error (.AccessDenied 5 "[ServiceManager::new] handle == 0"), []) ∧
    (ServiceHandle.new 9).drop = [9] :=
  ⟨((claim_C7
      { openScm := some 7
        openErr := 0
        priv :=
          { openTokenOk := true
            tokenHandle := 3
            lookupOk := true
            adjustRet := true
            adjustAllAssigned := true }
        privErr := 0 } 7 9).2.2.2.1 rfl rfl rfl rfl).1,
    ((claim_C7
      { openScm := some 7
        openErr := 0
        priv :=
          { openTokenOk := true
            tokenHandle := 3
            lookupOk := true
            adjustRet := true
            adjustAllAssigned := true }
        privErr := 0 } 7 9).2.2.2.1 rfl rfl rfl rfl).2,
    (claim_C7
      { openScm := none
        openErr := 5
        priv :=
          { openTokenOk := true
            tokenHandle := 3
            lookupOk := true
            adjustRet := true
            adjustAllAssigned := true }
        privErr := 0 } 7 9).2.2.1 rfl,
    (claim_C7
      { openScm := some 7
        openErr := 0
        priv :=
          { openTokenOk := true
            tokenHandle := 3
            lookupOk := true
            adjustRet := true
            adjustAllAssigned := true }
        privErr := 0 } 7 9).1⟩

def notAllAssignedBackend : PrivBackend :=
  { openTokenOk := true
    tokenHandle := 3
    lookupOk := true
    adjustRet := true
    adjustAllAssigned := false }

def nulName : String := String.mk [Char.ofNat 97, Char.ofNat 0, Char.ofNat 98]

/-- C8 counterexample: a name with an interior nul makes the encode unwrap
panic (no `Err(String)` is returned), and an adjust call that returns
success while assigning no privilege (`adjustAllAssigned = false`) is
accepted: `set_privilege` returns `Ok` and the manager constructor
succeeds — not the failure the claim requires. -/
theorem claim_C8_counterexample :
    set_privilege nulName notAllAssignedBackend = none ∧
    set_privilege "SeLoadDriverPrivilege" notAllAssignedBackend = some (.ok (), [3]) ∧
    ServiceManager.new
        { openScm := some 7, openErr := 0, priv := notAllAssignedBackend, privErr := 5 } =
      some (.ok (ServiceManager.mk (some 7)), []) ∧
    notAllAssignedBackend.adjustAllAssigned = false :=
  ⟨rfl, rfl, rfl, rfl⟩

/-- C8 (amended): for every input name without an interior nul,
`set_privilege` either returns `Ok` or a descriptive string error — failure
of the token-open, LUID-lookup and adjust steps each propagates as
`Err(String)` — but a name with an interior nul panics in the encode unwrap,
and a partial-success return from the adjust call (success return value with
privileges left unassigned) is NOT detected: `set_privilege` returns `Ok`
and `ServiceManager`'s constructor succeeds. -/
theorem claim_C8 : ∀ (name : String) (b : PrivBackend),
    (hasNul name = true → b.openTokenOk = true → set_privilege name b = none) ∧
    (b.openTokenOk = false →
      set_privilege name b = some (.error "OpenProcessToken failed", [])) ∧
    (hasNul name = false → b.openTokenOk = true → b.lookupOk = false →
      set_privilege name b = some (.error "LookupPrivilegeValueA failed", [b.tokenHandle])) ∧
    (hasNul name = false → b.openTokenOk = true → b.lookupOk = true → b.adjustRet = false →
      set_privilege name b = some (.error "AdjustTokenPrivileges failed", [b.tokenHandle])) ∧
    (hasNul name = false → b.openTokenOk = true → b.lookupOk = true → b.adjustRet = true →
      set_privilege name b = some (.ok (), [b.tokenHandle])) ∧
    (∀ (nb : NewBackend) (h : Nat), nb.openScm = some h → nb.priv.openTokenOk = true →
      nb.priv.lookupOk = true → nb.priv.adjustRet = true →
      ServiceManager.new nb = some (.ok (ServiceManager.mk (some h)), [])) := by
  intro name b
  have henc : encodeWide "SeLoadDriverPrivilege" = some "SeLoadDriverPrivilege" := by decide
  refine ⟨?_, ?_, ?_, ?_, ?_, ?_⟩
  · intro hn h1
    simp [set_privilege, encodeWide, h1]
    simp [hasNul] at hn
    simp [hn]
  · intro h1
    simp [set_privilege, h1]
  · intro hn h1 h2
    simp [set_privilege, encodeWide, h1, h2]
    simp [hasNul] at hn
    simp [hn]
  · intro hn h1 h2 h3
    simp [set_privilege, encodeWide, h1, h2, h3]
    simp [hasNul] at hn
    simp [hn]
  · intro hn h1 h2 h3
    simp [set_privilege, encodeWide, h1, h2, h3]
    simp [hasNul] at hn
    simp [hn]
  · intro nb h hb h1 h2 h3
    simp [ServiceManager.new, hb, set_privilege, h1, h2, h3, henc]

/-- C8 witness: each failing step surfaces its message; with everything
succeeding the token handle 3 is closed once and the call returns `Ok`. -/
theorem claim_C8_witness :
    set_privilege "SeLoadDriverPrivilege"
        { openTokenOk := false
          tokenHandle := 3
          lookupOk := true
          adjustRet := true
          adjustAllAssigned := true } =
      some (.error "OpenProcessToken failed", []) ∧
    set_privilege "SeLoadDriverPrivilege"
        { openTokenOk := true
          tokenHandle := 3
          lookupOk := false
          adjustRet := true
          adjustAllAssigned := true } =
      some (.error "LookupPrivilegeValueA failed", [3]) ∧
    set_privilege "SeLoadDriverPrivilege"
        { openTokenOk := true
          tokenHandle := 3
          lookupOk := true
          adjustRet := false
          adjustAllAssigned := true } =
      some (.error "AdjustTokenPrivileges failed", [3]) ∧
    set_privilege "SeLoadDriverPrivilege"
        { openTokenOk := true
          tokenHandle := 3
          lookupOk := true
          adjustRet := true
          adjustAllAssigned := true } =
      some (.ok (), [3]) :=
  ⟨(claim_C8 "SeLoadDriverPrivilege"
      { openTokenOk := false
        tokenHandle := 3
        lookupOk := true
        adjustRet := true
        adjustAllAssigned := true }).2.1 rfl,
    (claim_C8 "SeLoadDriverPrivilege"
      { openTokenOk := true
        tokenHandle := 3
        lookupOk := false
        adjustRet := true
        adjustAllAssigned := true }).2.2.1 (by decide) rfl rfl,
    (claim_C8 "SeLoadDriverPrivilege"
      { openTokenOk := true
        tokenHandle := 3
        lookupOk := true
        adjustRet := false
        adjustAllAssigned := true }).2.2.2.1 (by decide) rfl rfl rfl,
    (claim_C8 "SeLoadDriverPrivilege"
      { openTokenOk := true
        tokenHandle := 3
        lookupOk := true
        adjustRet := true
        adjustAllAssigned := true }).2.2.2.2.1 (by decide) rfl rfl rfl⟩
